import Mathlib

/-!
Verification of the edge/pinger library against its specification.

The Go sources are shallowly embedded: bytes are `List Nat`, Go `int` /
`int64` / `time.Duration` are `Int`, instants (`time.Time`) are `Int`
nanoseconds since the Unix epoch, Go `error` values form the inductive
`GoError` (with `none : Option GoError` playing the role of a nil error),
and the concurrent loops (`recv`, the `Ping` select loop, the `send`
retry loop) are folds over an explicit list of scheduler events.
-/

namespace PingerModel

/-- Go error values observable in the pinger package.  `opError` models a
non-nil `*net.OpError` with its `Timeout()` result and whether its wrapped
`Err` is `syscall.ENOBUFS`; `other` models any further distinct error value
(parse failures from the external icmp library, socket errors, ...). -/
inductive GoError where
  | alreadyConnected
  | notConnected
  | noAddress
  | icmpIgnoredPacket
  | replyTooShort (expected actual : Int)
  | opError (timeout enobufs : Bool) (code : Nat)
  | other (code : Nat)
  deriving Repr, DecidableEq

/-- Whether a Go error value is a `*net.OpError` (the type assertion
`err.(*net.OpError)` succeeds). -/
def GoError.isOpError : GoError → Bool
  | .opError _ _ _ => true
  | _ => false

/-- The `Timeout()` method of a `*net.OpError`; false on anything else. -/
def GoError.isTimeout : GoError → Bool
  | .opError t _ _ => t
  | _ => false

/-- Whether the error is a `*net.OpError` whose `Err` is `syscall.ENOBUFS`. -/
def GoError.isENOBUFSOp : GoError → Bool
  | .opError _ e _ => e
  | _ => false

/-- `RawPacket` from the source: raw response bytes, byte count, TTL. -/
structure RawPacket where
  Message : List Nat
  Size : Int
  TTL : Int
  deriving Repr, DecidableEq, Inhabited

/-- `Timer` from timer.go: start and stop instants (nanoseconds). -/
structure Timer where
  Started : Int
  Stopped : Int
  deriving Repr, DecidableEq

/-- `Timer.Elapsed` from timer.go: `Stopped.Sub(Started)`. -/
def Timer.Elapsed (t : Timer) : Int :=
  t.Stopped - t.Started

/-- `PacketMeta` from the source: address of the pinged host (addresses are
abstracted to `Nat` labels). -/
structure PacketMeta where
  Address : Nat
  deriving Repr, DecidableEq

/-- `TimedPacket` from the source: round-trip time and send instant. -/
structure TimedPacket where
  RTT : Int
  Sent : Int
  deriving Repr, DecidableEq

/-- `Packet` from the source: metadata, raw response and timing joined. -/
structure Packet where
  meta : PacketMeta
  raw : RawPacket
  timed : TimedPacket
  deriving Repr, DecidableEq

/-! ### Pinger wrapper (part_000) -/

/-- `pinger.Connect`: the input is the current `connected` flag together
with the result the wrapped driver WOULD return if invoked; the output is
the new flag, the returned error, and whether the driver was invoked. -/
def pingerConnect (connected : Bool) (driverResult : Option GoError) :
    Bool × Option GoError × Bool :=
  if connected then (connected, some .alreadyConnected, false)
  else
    match driverResult with
    | none => (true, none, true)
    | some e => (connected, some e, true)

/-- `pinger.Disconnect`: same shape as `pingerConnect`. -/
def pingerDisconnect (connected : Bool) (driverResult : Option GoError) :
    Bool × Option GoError × Bool :=
  if !connected then (connected, some .notConnected, false)
  else
    match driverResult with
    | none => (false, none, true)
    | some e => (connected, some e, true)

/-- A `Driver` as the pinger sees it: an address and a probe that stamps
the fresh timer it receives and yields a raw response or an error. -/
structure Driver where
  address : Nat
  ping : Timer → Except GoError (RawPacket × Timer)

/-- `pinger.Ping`: create a fresh zero timer, invoke the driver probe, on
failure propagate the error, on success assemble the `Packet` from the raw
response, the driver address, and the timer. -/
def pingerPing (d : Driver) : Except GoError Packet :=
  match d.ping { Started := 0, Stopped := 0 } with
  | .error e => .error e
  | .ok (raw, timer) =>
      .ok { meta := { Address := d.address }
            raw := raw
            timed := { RTT := timer.Elapsed, Sent := timer.Started } }

/-- A concrete driver used to witness C4. -/
def witnessDriver : Driver where
  address := 7
  ping := fun _ => .ok ({ Message := [1, 2, 3], Size := 3, TTL := 64 },
                        { Started := 100, Stopped := 250 })

/-! ### ICMP configuration (part_007) -/

/-- An IP address, abstracted to whether `isIPv4` holds plus a label. -/
structure IPAddr where
  isV4 : Bool
  label : Nat
  deriving Repr, DecidableEq

/-- `defaultReadTimeout = 100 * time.Millisecond` in nanoseconds. -/
def defaultReadTimeout : Int := 100 * 1000000

/-- `ICMPConfig` from part_007: optional address (`none` is Go nil) and a
read timeout. -/
structure ICMPConfig where
  Addr : Option IPAddr
  ReadTimeout : Int
  deriving Repr, DecidableEq

/-- `validateICMPConfig` from part_007: nil address fails with NoAddress;
a zero read timeout is replaced by the default. -/
def validateICMPConfig (cfg : ICMPConfig) : Except GoError ICMPConfig :=
  if cfg.Addr = none then .error .noAddress
  else if cfg.ReadTimeout = 0 then .ok { cfg with ReadTimeout := defaultReadTimeout }
  else .ok cfg

/-- The part of the ICMP driver fixed at construction: the validated
config and which protocol handler was selected. -/
structure ICMPDriverInit where
  config : ICMPConfig
  handlerIsV4 : Bool
  deriving Repr, DecidableEq

/-- The `ICMP` constructor from part_007: validate the config, then build
the driver with the protocol handler chosen by the address family. -/
def ICMP (cfg : ICMPConfig) : Except GoError ICMPDriverInit :=
  match validateICMPConfig cfg with
  | .error e => .error e
  | .ok cfg2 =>
      .ok { config := cfg2
            handlerIsV4 := match cfg2.Addr with
                           | some a => a.isV4
                           | none => false }

/-! ### ICMP message codec (part_002)

The byte-level helpers `timeToBytes` / `bytesToTime` / `intToBytes` /
`bytesToInt` are called from src/ but their definitions are not among the
provided source files, so they are modelled from the spec. -/

/-- Decode a list of big-endian bytes into a natural number. -/
def bytesToNatBE (l : List Nat) : Nat :=
  l.foldl (fun acc b => acc * 256 + b) 0

/-- Encode `v` as `w` big-endian bytes (most significant first). -/
def natToBytesBE : Nat → Nat → List Nat
  | 0, _ => []
  | w + 1, v => natToBytesBE w (v / 256) ++ [v % 256]

/-- Modelled from the spec: the repository's `intToBytes` helper is missing
from src/ (only its call sites are present); per §4.2 the tracker is
encoded as a fixed 8-byte integer, so an int64 value is laid out as its 8
two's-complement bytes, most significant first. -/
def intToBytes (n : Int) : List Nat :=
  natToBytesBE 8 ((n % (2 ^ 64)).toNat)

/-- Modelled from the spec: the repository's `bytesToInt` helper is missing
from src/; decodes 8 big-endian bytes as a two's-complement int64, the
exact inverse layout of `intToBytes` (the spec requires encode and decode
endianness to match exactly). -/
def bytesToInt (l : List Nat) : Int :=
  if bytesToNatBE l < 2 ^ 63 then (bytesToNatBE l : Int)
  else (bytesToNatBE l : Int) - 2 ^ 64

/-- Modelled from the spec: the repository's `timeToBytes` helper is
missing from src/; per §4.2 the current time is encoded as a fixed-width
8-byte integer (nanoseconds since the epoch here). -/
def timeToBytes (t : Int) : List Nat :=
  intToBytes t

/-- Modelled from the spec: the repository's `bytesToTime` helper is
missing from src/; inverse of `timeToBytes`. -/
def bytesToTime (l : List Nat) : Int :=
  bytesToInt l

/-- `timeSize = 8` from part_007. -/
def timeSize : Nat := 8

/-- `trackerSize = 8` from part_007. -/
def trackerSize : Nat := 8

/-- The `icmp.Echo` message body: identifier, sequence, payload data. -/
structure ICMPEcho where
  ID : Int
  Seq : Int
  Data : List Nat
  deriving Repr, DecidableEq, Inhabited

/-- An `icmp.Message` whose body is an echo: type constant, code, body. -/
structure ICMPMessage where
  MsgType : Nat
  Code : Nat
  Body : ICMPEcho
  deriving Repr, DecidableEq, Inhabited

/-- `icmpMessageProvider.WriteData` from part_002, with the call to
`time.Now()` made explicit as the `now` argument: payload is the encoded
timestamp, then the encoded tracker, then 1-filler up to
`timeSize + trackerSize` bytes if anything were missing. -/
def WriteData (now tracker : Int) : List Nat :=
  let data := timeToBytes now ++ intToBytes tracker
  if 0 < (timeSize + trackerSize : Int) - data.length then
    data ++ List.replicate ((timeSize + trackerSize : Int) - data.length).toNat 1
  else data

/-- `icmpMessageProvider.ReadData` from part_002: a payload shorter than
`timeSize + trackerSize` fails with the reply-too-short error carrying
expected and actual byte counts; otherwise the first 8 bytes decode as the
timestamp and the next 8 as the tracker, further bytes being ignored.
Returns `(tracker, timestamp)` as the Go code does. -/
def ReadData (msg : ICMPMessage) : Except GoError (Int × Int) :=
  let echo := msg.Body
  if echo.Data.length < timeSize + trackerSize then
    .error (.replyTooShort ((timeSize : Int) + (trackerSize : Int)) echo.Data.length)
  else
    .ok (bytesToInt ((echo.Data.drop timeSize).take trackerSize),
         bytesToTime (echo.Data.take timeSize))

/-- `icmpMessageProvider` state from part_002 (the mutex is modelled by
`Provide` being an atomic step). -/
structure IcmpMessageProviderState where
  id : Int
  msgType : Nat
  seq : Int
  tracker : Int
  deriving Repr, DecidableEq

/-- `newICMPMessageProvider` from part_002: `id` and `tracker` are drawn
from an RNG (parameters here), `msgType` is the handler request type, and
`seq` starts at 0. -/
def newICMPMessageProviderState (id : Int) (msgType : Nat) (tracker : Int) :
    IcmpMessageProviderState :=
  { id := id, msgType := msgType, seq := 0, tracker := tracker }

/-- `icmpMessageProvider.Provide` from part_002, one atomic step under the
codec mutex: build the message with the fixed id and the CURRENT sequence
number, fill its payload via `WriteData`, then increment the sequence. -/
def Provide (now : Int) (p : IcmpMessageProviderState) :
    ICMPMessage × IcmpMessageProviderState :=
  ({ MsgType := p.msgType
     Code := 0
     Body := { ID := p.id, Seq := p.seq, Data := WriteData now p.tracker } },
   { p with seq := p.seq + 1 })

/-- Iterate `Provide` over a list of clock instants, collecting the
messages produced on one connection in issue order. -/
def provideRun (nows : List Int) (p : IcmpMessageProviderState) :
    List ICMPMessage × IcmpMessageProviderState :=
  match nows with
  | [] => ([], p)
  | n :: rest =>
      let step := Provide n p
      let restRun := provideRun rest step.2
      (step.1 :: restRun.1, restRun.2)

/-! ### ICMP driver Ping loop (part_007) -/

/-- The body of a message returned by the protocol handler's `Parse`:
`icmp.ParseMessage` yields an `*icmp.Echo` body only for echo requests
and replies; destination-unreachable, time-exceeded, parameter-problem
and unknown-type messages carry other body types, abstracted here by a
code. -/
inductive ICMPBody where
  | echo (e : ICMPEcho)
  | nonEcho (code : Nat)
  deriving Repr, DecidableEq

/-- A parsed `icmp.Message` as the protocol handler's `Parse` returns it:
type constant, code, and a body that need not be an echo. -/
structure ParsedMessage where
  MsgType : Nat
  Code : Nat
  Body : ICMPBody
  deriving Repr, DecidableEq

/-- The correlation-relevant state of a connected ICMP driver: the
protocol handler's `Parse` (an external function returning a message or a
distinct parse-error value, encoded as a code injected into
`GoError.other`), the family's echo-reply type constant, and the codec's
fixed identifier and tracker. -/
structure ICMPDriverCtx where
  parse : List Nat → Except Nat ParsedMessage
  replyType : Nat
  providerId : Int
  providerTracker : Int

/-- `isICMPIgnoredPacket` from part_007: equality with the package's
sentinel error value. -/
def isICMPIgnoredPacket : GoError → Bool
  | .icmpIgnoredPacket => true
  | _ => false

/-- Outcome of `icmpDriver.handlePacket`: either the Go function returns
an error value (`value (some e)`) or nil (`value none`), or it panics in
the single-value type assertion `msg.Body.(*icmp.Echo)`. -/
inductive HandleResult where
  | panic
  | value (e : Option GoError)
  deriving Repr, DecidableEq

/-- `icmpDriver.handlePacket` from part_007: parse the raw bytes (a parse
error is returned as-is), then execute the type assertion
`echo := msg.Body.(*icmp.Echo)` — which PANICS when the parsed body is
not an echo, BEFORE the reply-type check runs; for echo-bodied messages,
discard (ignored-packet error) when the message type is not the reply
type, when the echo ID differs from the codec's id, or when the decoded
tracker differs from the codec's tracker; a ReadData error is returned
as-is; otherwise accept (`value none`, Go nil error). -/
def handlePacket (d : ICMPDriverCtx) (raw : RawPacket) : HandleResult :=
  match d.parse raw.Message with
  | .error n => .value (some (.other n))
  | .ok msg =>
      match msg.Body with
      | .nonEcho _ => .panic
      | .echo echo =>
          if msg.MsgType ≠ d.replyType then .value (some .icmpIgnoredPacket)
          else if echo.ID ≠ d.providerId then .value (some .icmpIgnoredPacket)
          else
            match ReadData { MsgType := msg.MsgType, Code := msg.Code, Body := echo } with
            | .error e => .value (some e)
            | .ok (track, _) =>
                if track ≠ d.providerTracker then .value (some .icmpIgnoredPacket)
                else .value none

/-- One event won by the select race inside `icmpDriver.Ping`:
cancellation (with the scope's error), a send-task failure, or a raw
reply delivered on the handoff channel. -/
inductive PingEvent where
  | ctxDone (e : GoError)
  | sendFailed (e : GoError)
  | reply (raw : RawPacket)

/-- Outcome of the `Ping` select loop over a finite event list: the
events ran out with the probe still racing (`waiting`), `handlePacket`
panicked and the panic unwound the call (`panicked`), or the probe
completed with a result or error. -/
inductive PingOutcome where
  | waiting
  | panicked
  | result (r : Except GoError RawPacket)
  deriving Repr

/-- The `for`/`select` loop of `icmpDriver.Ping` from part_007, run over
the sequence of events the scheduler delivers: cancellation and send
errors return immediately; a delivered reply is validated by
`handlePacket`, whose panic unwinds the call, whose ignored-packet
verdict re-enters the race, whose other error verdicts fail the probe,
and whose acceptance returns the raw reply. -/
def pingLoop (d : ICMPDriverCtx) : List PingEvent → PingOutcome
  | [] => .waiting
  | .ctxDone e :: _ => .result (.error e)
  | .sendFailed e :: _ => .result (.error e)
  | .reply raw :: rest =>
      match handlePacket d raw with
      | .panic => .panicked
      | .value (some e) =>
          if isICMPIgnoredPacket e then pingLoop d rest else .result (.error e)
      | .value none => .result (.ok raw)

/-- A concrete parse function exhibiting the C1 failing input: an empty
buffer fails to parse with code 5; otherwise the first byte becomes the
message type and the body is non-echo, exactly what `icmp.ParseMessage`
produces for a stray destination-unreachable datagram (type 3). -/
def strayParse : List Nat → Except Nat ParsedMessage := fun b =>
  match b with
  | [] => .error 5
  | x :: _ => .ok { MsgType := x, Code := 0, Body := .nonEcho x }

/-- A concrete driver context receiving the stray non-echo reply. -/
def strayCtx : ICMPDriverCtx :=
  { parse := strayParse, replyType := 0, providerId := 9, providerTracker := 0 }

/-! ### ICMP driver receive task (part_007) -/

/-- One attempt inside `recvPacket`: the `SetReadDeadline` call fails, the
handler `Read` fails, or the read succeeds with bytes, count and TTL. -/
inductive ReadAttempt where
  | deadlineErr (e : GoError)
  | readErr (e : GoError)
  | readOk (b : List Nat) (nb ttl : Int)

/-- `icmpDriver.recvPacket` from part_007: on either failure the zero
`RawPacket` is returned next to the error; on success the raw packet is
assembled from the read. -/
def recvPacket : ReadAttempt → RawPacket × Option GoError
  | .deadlineErr e => ({ Message := [], Size := 0, TTL := 0 }, some e)
  | .readErr e => ({ Message := [], Size := 0, TTL := 0 }, some e)
  | .readOk b nb ttl => ({ Message := b, Size := nb, TTL := ttl }, none)

/-- One iteration input of the receive task: either the cancellation
scope is done (with its error), or the default branch runs one read. -/
inductive RecvIterInput where
  | ctxDone (e : GoError)
  | readAttempt (a : ReadAttempt)

/-- Terminal status of the receive task: still looping (inputs ran out),
or returned — at which point the deferred close of the handoff channel
has run. -/
inductive RecvStatus where
  | running
  | closedWith (e : Option GoError)
  deriving Repr, DecidableEq

/-- `icmpDriver.recv` from part_007 run over a list of iteration inputs,
returning the packets pushed onto the handoff channel in order and the
terminal status.  A non-nil `recvPacket` error that is a `*net.OpError`
either continues the loop (timeout) or returns it (anything else); an
error that fails the `*net.OpError` type assertion falls through to the
channel send, delivering the zero packet. -/
def recvLoop : List RecvIterInput → List RawPacket × RecvStatus
  | [] => ([], .running)
  | .ctxDone e :: _ => ([], .closedWith (some e))
  | .readAttempt a :: rest =>
      match (recvPacket a).2 with
      | some e =>
          if e.isOpError then
            if e.isTimeout then recvLoop rest
            else ([], .closedWith (some e))
          else
            ((recvPacket a).1 :: (recvLoop rest).1, (recvLoop rest).2)
      | none =>
          ((recvPacket a).1 :: (recvLoop rest).1, (recvLoop rest).2)

/-! ### ICMP driver send task (part_007) -/

/-- The `WriteTo` retry loop of `icmpDriver.send`, run over the outcomes
of successive write attempts (`none` is a successful write): an error
that is a `*net.OpError` wrapping `syscall.ENOBUFS` retries, any other
error is returned, and a success stops the timer and returns nil.
`none` overall means every attempt so far hit ENOBUFS and the loop is
still retrying. -/
def sendWriteLoop (timer : Timer) (stopNow : Int) :
    List (Option GoError) → Option (Option GoError × Timer)
  | [] => none
  | some e :: rest =>
      if e.isENOBUFSOp then sendWriteLoop timer stopNow rest
      else some (some e, timer)
  | none :: _ => some (none, { timer with Stopped := stopNow })

/-- The environment of one `icmpDriver.send` run: the clock instant the
codec stamps into the payload, the marshal outcome, the successive write
outcomes, and the instants read by `timer.Start()` / `timer.Stop()`. -/
structure SendEnv where
  provideNow : Int
  marshalResult : Except GoError (List Nat)
  writeResults : List (Option GoError)
  startNow : Int
  stopNow : Int

/-- `icmpDriver.send` from part_007: build the next request via the codec
(advancing its state), marshal it, return a marshal error as the task
failure, otherwise start the timer and enter the write retry loop. -/
def send (env : SendEnv) (p : IcmpMessageProviderState) (timer : Timer) :
    Option (Option GoError × Timer) × IcmpMessageProviderState :=
  let step := Provide env.provideNow p
  match env.marshalResult with
  | .error e => (some (some e, timer), step.2)
  | .ok _ =>
      (sendWriteLoop { timer with Started := env.startNow } env.stopNow
        env.writeResults, step.2)

/-! ### IPv4 transport read (icmp_ipv4.go) -/

/-- `icmpIPv4Handler.Read`: allocate a 512-byte buffer, read one datagram
into it (`dgram` is what the OS delivers, truncated to the buffer), and
report the byte count and the control-message TTL (0 when the OS supplied
no control message). -/
def icmpIPv4Read (dgram : List Nat) (cmTTL : Option Int) : List Nat × Int × Int :=
  let b := dgram.take 512 ++ List.replicate (512 - min dgram.length 512) 0
  (b, ((min dgram.length 512 : Nat) : Int), cmTTL.getD 0)

end PingerModel

namespace PingerModel

/-! ### Shared lemmas about the byte encoding -/

theorem length_natToBytesBE (w v : Nat) : (natToBytesBE w v).length = w := by
  induction w generalizing v with
  | zero => rfl
  | succ w ih => simp [natToBytesBE, ih]

theorem bytesToNatBE_natToBytesBE (w v : Nat) :
    bytesToNatBE (natToBytesBE w v) = v % 256 ^ w := by
  induction w generalizing v with
  | zero => simp [natToBytesBE, bytesToNatBE, Nat.mod_one]
  | succ w ih =>
      have hs : bytesToNatBE (natToBytesBE w (v / 256) ++ [v % 256]) =
          bytesToNatBE (natToBytesBE w (v / 256)) * 256 + v % 256 := by
        unfold bytesToNatBE
        rw [List.foldl_append]
        rfl
      unfold natToBytesBE
      rw [hs, ih, pow_succ, mul_comm (256 ^ w) 256, Nat.mod_mul]
      omega

theorem length_intToBytes (n : Int) : (intToBytes n).length = 8 :=
  length_natToBytesBE 8 _

theorem bytesToInt_intToBytes (n : Int) (h1 : -(2 ^ 63) ≤ n) (h2 : n < 2 ^ 63) :
    bytesToInt (intToBytes n) = n := by
  unfold bytesToInt intToBytes
  rw [bytesToNatBE_natToBytesBE]
  have hmod : (n % 2 ^ 64).toNat % 256 ^ 8 = (n % 2 ^ 64).toNat := by
    apply Nat.mod_eq_of_lt
    have hlt : n % 2 ^ 64 < 2 ^ 64 := Int.emod_lt_of_pos n (by norm_num)
    have h256 : (256 : Nat) ^ 8 = 2 ^ 64 := by norm_num
    omega
  rw [hmod]
  have hnn : (0 : Int) ≤ n % 2 ^ 64 := Int.emod_nonneg n (by norm_num)
  have hlt : n % 2 ^ 64 < 2 ^ 64 := Int.emod_lt_of_pos n (by norm_num)
  have hcase : n % 2 ^ 64 = n ∨ n % 2 ^ 64 = n + 2 ^ 64 := by omega
  split <;> omega

/-! ### Claim theorems -/

/-- Claim C2: Connect on an already-connected Pinger returns
AlreadyConnected, leaves the flag unchanged and does not invoke the
driver; Disconnect when not connected returns NotConnected likewise; in
the legal state each operation delegates to the driver and flips the flag
exactly when the driver succeeds, returning the driver error unchanged
otherwise. -/
theorem C2_pinger_state_machine :
    (∀ r, pingerConnect true r = (true, some .alreadyConnected, false)) ∧
    (∀ r, pingerDisconnect false r = (false, some .notConnected, false)) ∧
    pingerConnect false none = (true, none, true) ∧
    (∀ e, pingerConnect false (some e) = (false, some e, true)) ∧
    pingerDisconnect true none = (false, none, true) ∧
    (∀ e, pingerDisconnect true (some e) = (true, some e, true)) := by
  refine ⟨fun r => rfl, fun r => rfl, rfl, fun e => rfl, rfl, fun e => rfl⟩

/-- Claim C4: when the driver probe succeeds with raw `r` and a timer
stamped with start `s` and stop `e`, `pinger.Ping` returns the Packet with
raw `r`, the driver address, `Sent = s` and `RTT = e - s`; when the probe
fails, the error is returned unchanged. -/
theorem C4_pinger_ping_assembly (d : Driver) (r : RawPacket) (s e : Int)
    (err : GoError) :
    (d.ping { Started := 0, Stopped := 0 } = .ok (r, { Started := s, Stopped := e }) →
      pingerPing d = .ok { meta := { Address := d.address }
                           raw := r
                           timed := { RTT := e - s, Sent := s } }) ∧
    (d.ping { Started := 0, Stopped := 0 } = .error err →
      pingerPing d = .error err) := by
  constructor
  · intro h
    simp [pingerPing, h, Timer.Elapsed]
  · intro h
    simp [pingerPing, h]

theorem C4_pinger_ping_assembly_witness :
    pingerPing witnessDriver =
      .ok { meta := { Address := 7 }
            raw := { Message := [1, 2, 3], Size := 3, TTL := 64 }
            timed := { RTT := 150, Sent := 100 } } :=
  (C4_pinger_ping_assembly witnessDriver
    { Message := [1, 2, 3], Size := 3, TTL := 64 } 100 250 (.other 0)).1 rfl

/-- Claim C9: a nil address fails ICMP construction with NoAddress (no
driver is constructed); with an address present, a zero read timeout is
replaced by the 100ms default and a non-zero one is kept. -/
theorem C9_icmp_config_validation (cfg : ICMPConfig) :
    (cfg.Addr = none → ICMP cfg = .error .noAddress) ∧
    (∀ a, cfg.Addr = some a → cfg.ReadTimeout = 0 →
      ICMP cfg = .ok { config := { Addr := some a, ReadTimeout := 100 * 1000000 }
                       handlerIsV4 := a.isV4 }) ∧
    (∀ a, cfg.Addr = some a → cfg.ReadTimeout ≠ 0 →
      ICMP cfg = .ok { config := cfg, handlerIsV4 := a.isV4 }) := by
  refine ⟨?_, ?_, ?_⟩
  · intro h
    simp [ICMP, validateICMPConfig, h]
  · intro a ha h0
    cases cfg with
    | mk addr rt =>
        simp only at ha h0
        subst ha h0
        simp [ICMP, validateICMPConfig, defaultReadTimeout]
  · intro a ha h0
    cases cfg with
    | mk addr rt =>
        simp only at ha h0
        subst ha
        simp [ICMP, validateICMPConfig, h0]

theorem C9_icmp_config_validation_witness :
    ICMP { Addr := some { isV4 := true, label := 1 }, ReadTimeout := 0 } =
      .ok { config := { Addr := some { isV4 := true, label := 1 }
                        ReadTimeout := 100 * 1000000 }
            handlerIsV4 := true } :=
  (C9_icmp_config_validation
    { Addr := some { isV4 := true, label := 1 }, ReadTimeout := 0 }).2.1
    { isV4 := true, label := 1 } rfl rfl

/-- Claim C6: `ReadData` fails exactly on payloads shorter than
`timeSize + trackerSize = 16` bytes, and then the error carries
expected = 16 and the actual length; for length at least 16 it succeeds. -/
theorem C6_readdata_reply_too_short (msg : ICMPMessage) :
    (msg.Body.Data.length < 16 →
      ReadData msg = .error (.replyTooShort 16 msg.Body.Data.length)) ∧
    (16 ≤ msg.Body.Data.length → ∃ v, ReadData msg = .ok v) := by
  constructor
  · intro h
    simp only [ReadData, timeSize, trackerSize]
    rw [if_pos (by omega)]
    norm_num
  · intro h
    simp only [ReadData, timeSize, trackerSize]
    rw [if_neg (by omega)]
    exact ⟨_, rfl⟩

theorem C6_readdata_reply_too_short_witness :
    ReadData { MsgType := 0, Code := 0, Body := { ID := 1, Seq := 0, Data := [9, 9, 9] } } =
      .error (.replyTooShort 16 3) :=
  (C6_readdata_reply_too_short
    { MsgType := 0, Code := 0, Body := { ID := 1, Seq := 0, Data := [9, 9, 9] } }).1
    (by norm_num)

/-- Claim C5: encoding the correlation payload for instant `t` and tracker
`tr` (both in int64 range) exactly as `WriteData` lays it out and then
decoding it with `ReadData` recovers the tracker exactly and the timestamp
exactly (hence within one nanosecond, the encoding unit); any payload
bytes beyond the two fields are ignored by the decode. -/
theorem C5_codec_roundtrip (t tr : Int) (rest : List Nat) (mt c : Nat)
    (idv sq : Int)
    (ht1 : -(2 ^ 63) ≤ t) (ht2 : t < 2 ^ 63)
    (htr1 : -(2 ^ 63) ≤ tr) (htr2 : tr < 2 ^ 63) :
    ReadData { MsgType := mt, Code := c
               Body := { ID := idv, Seq := sq, Data := WriteData t tr ++ rest } } =
      .ok (tr, t) := by
  have hW : WriteData t tr = timeToBytes t ++ intToBytes tr := by
    unfold WriteData
    rw [if_neg]
    simp [timeToBytes, length_intToBytes, timeSize, trackerSize]
  have hlt : (timeToBytes t).length = 8 := length_natToBytesBE 8 _
  have hltr : (intToBytes tr).length = 8 := length_intToBytes tr
  simp only [ReadData, hW]
  rw [if_neg (by simp [hlt, hltr, timeSize, trackerSize]; omega)]
  have htake : ((timeToBytes t ++ (intToBytes tr ++ rest)).take timeSize) = timeToBytes t := by
    rw [show timeSize = (timeToBytes t).length from hlt.symm, List.take_left]
  have hdrop : ((timeToBytes t ++ (intToBytes tr ++ rest)).drop timeSize) =
      intToBytes tr ++ rest := by
    rw [show timeSize = (timeToBytes t).length from hlt.symm, List.drop_left]
  simp only [List.append_assoc]
  rw [htake, hdrop]
  rw [show trackerSize = (intToBytes tr).length from hltr.symm, List.take_left]
  rw [bytesToTime, bytesToInt_intToBytes tr htr1 htr2,
    timeToBytes, bytesToInt_intToBytes t ht1 ht2]

theorem C5_codec_roundtrip_witness :
    ReadData { MsgType := 0, Code := 0
               Body := { ID := 5, Seq := 0
                         Data := WriteData 1700000000000000000 (-42) ++ [3, 3, 3] } } =
      .ok (-42, 1700000000000000000) :=
  C5_codec_roundtrip 1700000000000000000 (-42) [3, 3, 3] 0 0 5 0
    (by norm_num) (by norm_num) (by norm_num) (by norm_num)

theorem provideRun_seq (nows : List Int) (p : IcmpMessageProviderState) :
    (provideRun nows p).2.seq = p.seq + nows.length ∧
    ∀ k, k < nows.length →
      ((provideRun nows p).1.getD k default).Body.Seq = p.seq + k := by
  induction nows generalizing p with
  | nil =>
      refine ⟨by simp [provideRun], ?_⟩
      intro k hk
      simp at hk
  | cons n rest ih =>
      obtain ⟨ih1, ih2⟩ := ih { p with seq := p.seq + 1 }
      refine ⟨?_, ?_⟩
      · show (provideRun rest { p with seq := p.seq + 1 }).2.seq = _
        rw [ih1]
        simp only [List.length_cons]
        push_cast
        ring
      · intro k hk
        cases k with
        | zero =>
            show (Provide n p).1.Body.Seq = _
            simp [Provide]
        | succ k =>
            have hk2 : k < rest.length := by
              simpa using Nat.lt_of_succ_lt_succ hk
            have hr := ih2 k hk2
            show ((provideRun rest { p with seq := p.seq + 1 }).1.getD k default).Body.Seq = _
            rw [hr]
            push_cast
            ring

/-- Claim C8: the codec's sequence number starts at 0, each `Provide`
stamps the current sequence into the emitted message and increments it by
one, so the (k+1)-th message produced on one connection carries sequence
k, and after n calls the counter is exactly n (never reset within the
connection). -/
theorem C8_sequence_numbers (idv : Int) (mt : Nat) (tr : Int) (nows : List Int) :
    (newICMPMessageProviderState idv mt tr).seq = 0 ∧
    (provideRun nows (newICMPMessageProviderState idv mt tr)).2.seq = nows.length ∧
    ∀ k, k < nows.length →
      ((provideRun nows (newICMPMessageProviderState idv mt tr)).1.getD k
        default).Body.Seq = k := by
  obtain ⟨h1, h2⟩ := provideRun_seq nows (newICMPMessageProviderState idv mt tr)
  refine ⟨rfl, ?_, ?_⟩
  · rw [h1]
    simp [newICMPMessageProviderState]
  · intro k hk
    rw [h2 k hk]
    simp [newICMPMessageProviderState]

theorem C8_sequence_numbers_witness :
    ((provideRun [11, 12, 13] (newICMPMessageProviderState 1 8 2)).1.getD 2
      default).Body.Seq = 2 :=
  (C8_sequence_numbers 1 8 2 [11, 12, 13]).2.2 2 (by norm_num)

/-- Claim C1, evaluated at the failing input: a raw reply of bytes `[3]`
parses (successfully) under `strayCtx` to a destination-unreachable
message — type 3, which is not the echo-reply type 0, and a non-echo
body.  The claim (with the spec's §4.4 taxonomy and the source's own
comment at part_007:135, "ignore if not echo reply") says such a reply is
discarded and the probe keeps waiting on the same race, i.e. the loop
outcome would be `waiting`; but `handlePacket` executes the type
assertion `msg.Body.(*icmp.Echo)` before the reply-type check, so the
code panics instead. -/
theorem C1_nonecho_reply_panics :
    strayCtx.parse [3] = .ok { MsgType := 3, Code := 0, Body := .nonEcho 3 } ∧
    strayCtx.replyType = 0 ∧
    pingLoop strayCtx [.reply { Message := [3], Size := 1, TTL := 0 }] = .panicked :=
  ⟨rfl, rfl, rfl⟩

/-- Counterexample to claim C3 as stated: `GoError.other 0` is a non-nil,
non-timeout read error, yet the receive task neither exits its loop nor
closes the handoff channel — because the error fails the `*net.OpError`
type assertion, the code falls through to the channel send and delivers
the zero `RawPacket`, and the status stays `running`. -/
theorem C3_recv_nontimeout_counterexample :
    (GoError.other 0).isTimeout = false ∧
    recvLoop [.readAttempt (.readErr (.other 0))] =
      ([{ Message := [], Size := 0, TTL := 0 }], .running) := by
  exact ⟨rfl, rfl⟩

/-- Claim C3 (amended): for an iteration whose read attempt returns an
error, a timeout (`*net.OpError` with `Timeout()` true) continues the
loop delivering nothing; a non-timeout error that IS a `*net.OpError`
exits the loop and closes the handoff channel with nothing further
delivered; an error that is NOT a `*net.OpError` does not exit — the
zero-valued `RawPacket` is delivered on the handoff channel and the loop
continues. -/
theorem C3_recv_error_handling (a : ReadAttempt) (e : GoError)
    (rest : List RecvIterInput) (he : (recvPacket a).2 = some e) :
    (e.isOpError = true → e.isTimeout = true →
      recvLoop (.readAttempt a :: rest) = recvLoop rest) ∧
    (e.isOpError = true → e.isTimeout = false →
      recvLoop (.readAttempt a :: rest) = ([], .closedWith (some e))) ∧
    (e.isOpError = false →
      recvLoop (.readAttempt a :: rest) =
        (({ Message := [], Size := 0, TTL := 0 } : RawPacket) :: (recvLoop rest).1,
          (recvLoop rest).2)) := by
  have hz : (recvPacket a).1 = { Message := [], Size := 0, TTL := 0 } := by
    cases a with
    | deadlineErr e2 => rfl
    | readErr e2 => rfl
    | readOk b nb ttl => simp [recvPacket] at he
  refine ⟨?_, ?_, ?_⟩
  · intro hop ht
    simp [recvLoop, he, hop, ht]
  · intro hop ht
    simp [recvLoop, he, hop, ht]
  · intro hop
    simp [recvLoop, he, hop, hz]

theorem C3_recv_error_handling_witness :
    recvLoop [.readAttempt (.readErr (.opError false false 0))] =
      ([], .closedWith (some (.opError false false 0))) :=
  (C3_recv_error_handling (.readErr (.opError false false 0))
    (.opError false false 0) [] rfl).2.1 rfl rfl

theorem sendWriteLoop_started (t : Timer) (sn : Int)
    (l : List (Option GoError)) (r : Option GoError) (t2 : Timer)
    (h : sendWriteLoop t sn l = some (r, t2)) : t2.Started = t.Started := by
  induction l with
  | nil => simp [sendWriteLoop] at h
  | cons x rest ih =>
      cases x with
      | none =>
          simp only [sendWriteLoop, Option.some.injEq, Prod.mk.injEq] at h
          rw [← h.2]
      | some e =>
          by_cases hb : e.isENOBUFSOp
          · rw [sendWriteLoop, if_pos hb] at h
            exact ih h
          · rw [sendWriteLoop, if_neg hb] at h
            simp only [Option.some.injEq, Prod.mk.injEq] at h
            rw [← h.2]

/-- Claim C7: the send task builds the next request via the codec
(advancing the sequence state), returns a marshal error as the task's
failure, stamps the timer's start before the first write attempt (every
completed outcome after a successful marshal carries that start instant),
retries a write exactly when its error is the transient ENOBUFS
condition, returns any other write error, and on a successful write stops
the timer and returns success. -/
theorem C7_send_task (env : SendEnv) (p : IcmpMessageProviderState)
    (timer : Timer) :
    (send env p timer).2 = (Provide env.provideNow p).2 ∧
    (∀ e, env.marshalResult = .error e →
      (send env p timer).1 = some (some e, timer)) ∧
    (∀ bs r t2, env.marshalResult = .ok bs →
      (send env p timer).1 = some (r, t2) → t2.Started = env.startNow) ∧
    (∀ t sn e rest, e.isENOBUFSOp = true →
      sendWriteLoop t sn (some e :: rest) = sendWriteLoop t sn rest) ∧
    (∀ t sn e rest, e.isENOBUFSOp = false →
      sendWriteLoop t sn (some e :: rest) = some (some e, t)) ∧
    (∀ t sn rest,
      sendWriteLoop t sn (none :: rest) = some (none, { t with Stopped := sn })) := by
  refine ⟨?_, ?_, ?_, ?_, ?_, ?_⟩
  · cases hm : env.marshalResult with
    | error e => simp [send, hm]
    | ok bs => simp [send, hm]
  · intro e hm
    simp [send, hm]
  · intro bs r t2 hm hout
    rw [send] at hout
    rw [hm] at hout
    simp only at hout
    have := sendWriteLoop_started { timer with Started := env.startNow }
      env.stopNow env.writeResults r t2 hout
    rw [this]
  · intro t sn e rest hb
    rw [sendWriteLoop, if_pos hb]
  · intro t sn e rest hb
    rw [sendWriteLoop, if_neg (by rw [hb]; exact Bool.false_ne_true)]
  · intro t sn rest
    rfl

theorem C7_send_task_witness :
    sendWriteLoop { Started := 3, Stopped := 0 } 9
        [some (.opError false true 0), none] =
      some (none, { Started := 3, Stopped := 9 }) := by
  have h1 := (C7_send_task
    { provideNow := 0, marshalResult := .ok [], writeResults := []
      startNow := 0, stopNow := 0 }
    (newICMPMessageProviderState 0 0 0) { Started := 0, Stopped := 0 }).2.2.2.1
    { Started := 3, Stopped := 0 } 9 (.opError false true 0) [none] rfl
  have h2 := (C7_send_task
    { provideNow := 0, marshalResult := .ok [], writeResults := []
      startNow := 0, stopNow := 0 }
    (newICMPMessageProviderState 0 0 0) { Started := 0, Stopped := 0 }).2.2.2.2.2
    { Started := 3, Stopped := 0 } 9 ([] : List (Option GoError))
  rw [h1, h2]

/-- Claim C10: for every datagram the OS delivers, the IPv4 handler's
read hands back the entire 512-byte buffer as the message (its length is
512 regardless of the datagram size) while the count is the number of
bytes actually read, and `recvPacket` stores them untruncated: the
Packet's Message is the full buffer, its prefix of the read length being
the datagram bytes. -/
theorem C10_read_buffer_untruncated (dgram : List Nat) (cmTTL : Option Int) :
    (recvPacket (.readOk (icmpIPv4Read dgram cmTTL).1
        (icmpIPv4Read dgram cmTTL).2.1 (icmpIPv4Read dgram cmTTL).2.2)).1.Message.length
      = 512 ∧
    (recvPacket (.readOk (icmpIPv4Read dgram cmTTL).1
        (icmpIPv4Read dgram cmTTL).2.1 (icmpIPv4Read dgram cmTTL).2.2)).1.Message
      = (icmpIPv4Read dgram cmTTL).1 ∧
    (recvPacket (.readOk (icmpIPv4Read dgram cmTTL).1
        (icmpIPv4Read dgram cmTTL).2.1 (icmpIPv4Read dgram cmTTL).2.2)).1.Size
      = ((min dgram.length 512 : Nat) : Int) ∧
    (recvPacket (.readOk (icmpIPv4Read dgram cmTTL).1
        (icmpIPv4Read dgram cmTTL).2.1 (icmpIPv4Read dgram cmTTL).2.2)).1.Message.take
        (min dgram.length 512) = dgram.take 512 := by
  refine ⟨?_, rfl, rfl, ?_⟩
  · simp only [recvPacket, icmpIPv4Read, List.length_append, List.length_take,
      List.length_replicate]
    omega
  · simp only [recvPacket, icmpIPv4Read]
    rw [show min dgram.length 512 = (dgram.take 512).length by
      simp [List.length_take, Nat.min_comm]]
    rw [List.take_left]

end PingerModel
